import Mathlib

/-!
Shallow embedding of `src/ioctl.c`: a diagnostic program that prints the
numeric values of eight GPIO character-device ioctl request codes.

The embedding covers:
* the C struct layout rules needed for the payload structures declared in
  the file (sizes and alignments under the target platform's rules:
  `char` is 1 byte, `__u32`/`__s32` are 4-byte aligned 4-byte integers,
  `__aligned_u64` is an 8-byte aligned 8-byte integer);
* the ioctl number packing macros (`_IOC`, `_IOR`, `_IOWR`) that the file
  expands via `<linux/ioctl.h>`, with the standard asm-generic shift and
  direction constants;
* the eight ioctl code definitions and the report `main` prints.
-/

/-- Rounds `off` up to the next multiple of the alignment `a`. -/
def alignUp (off a : Nat) : Nat := ((off + a - 1) / a) * a

/-- Layout of a C type: the pair (size in bytes, alignment in bytes). -/
abbrev Layout := Nat × Nat

/-- Layout of `char`. -/
def charLayout : Layout := (1, 1)

/-- Layout of `__u32`. -/
def u32Layout : Layout := (4, 4)

/-- Layout of `__s32`. -/
def s32Layout : Layout := (4, 4)

/-- Layout of `__aligned_u64`. -/
def u64Layout : Layout := (8, 8)

/-- Layout of a C array `t[n]`. -/
def arrayLayout (t : Layout) (n : Nat) : Layout := (t.1 * n, t.2)

/-- Layout of a C struct with the given ordered field layouts: each field
is placed at the next offset aligned for it, and the total size is rounded
up to the struct alignment, which is the maximum field alignment. -/
def structLayout (fields : List Layout) : Layout :=
  let a := fields.foldr (fun f acc => max f.2 acc) 1
  let off := fields.foldl (fun off f => alignUp off f.2 + f.1) 0
  (alignUp off a, a)

/-- Layout of a C union with the given member layouts: size is the maximum
member size rounded up to the union alignment, which is the maximum member
alignment. -/
def unionLayout (fields : List Layout) : Layout :=
  let a := fields.foldr (fun f acc => max f.2 acc) 1
  let sz := fields.foldr (fun f acc => max f.1 acc) 0
  (alignUp sz a, a)

/-- Size component of a layout, the value `sizeof` yields in C. -/
def sizeofL (t : Layout) : Nat := t.1

/-- Constant GPIO_MAX_NAME_SIZE from the source. -/
def GPIO_MAX_NAME_SIZE : Nat := 32

/-- Constant GPIO_V2_LINES_MAX from the source. -/
def GPIO_V2_LINES_MAX : Nat := 64

/-- Constant GPIO_V2_LINE_NUM_ATTRS_MAX from the source. -/
def GPIO_V2_LINE_NUM_ATTRS_MAX : Nat := 10

/-- Layout of `struct gpiochip_info`: two `char[32]` arrays and a `__u32`. -/
def gpiochip_info : Layout :=
  structLayout
    [ arrayLayout charLayout GPIO_MAX_NAME_SIZE
    , arrayLayout charLayout GPIO_MAX_NAME_SIZE
    , u32Layout ]

/-- Layout of `struct gpio_v2_line_attribute`: `__u32 id`, `__u32 padding`,
and an anonymous union of two `__aligned_u64` members and a `__u32`. -/
def gpio_v2_line_attribute : Layout :=
  structLayout
    [ u32Layout
    , u32Layout
    , unionLayout [u64Layout, u64Layout, u32Layout] ]

/-- Layout of `struct gpio_v2_line_config_attribute`: a
`struct gpio_v2_line_attribute` followed by an `__aligned_u64 mask`. -/
def gpio_v2_line_config_attribute : Layout :=
  structLayout [gpio_v2_line_attribute, u64Layout]

/-- Layout of `struct gpio_v2_line_config`. -/
def gpio_v2_line_config : Layout :=
  structLayout
    [ u64Layout
    , u32Layout
    , arrayLayout u32Layout 5
    , arrayLayout gpio_v2_line_config_attribute GPIO_V2_LINE_NUM_ATTRS_MAX ]

/-- Layout of `struct gpio_v2_line_request`. -/
def gpio_v2_line_request : Layout :=
  structLayout
    [ arrayLayout u32Layout GPIO_V2_LINES_MAX
    , arrayLayout charLayout GPIO_MAX_NAME_SIZE
    , gpio_v2_line_config
    , u32Layout
    , u32Layout
    , arrayLayout u32Layout 5
    , s32Layout ]

/-- Layout of `struct gpio_v2_line_info`. -/
def gpio_v2_line_info : Layout :=
  structLayout
    [ arrayLayout charLayout GPIO_MAX_NAME_SIZE
    , arrayLayout charLayout GPIO_MAX_NAME_SIZE
    , u32Layout
    , u32Layout
    , u64Layout
    , arrayLayout gpio_v2_line_attribute GPIO_V2_LINE_NUM_ATTRS_MAX
    , arrayLayout u32Layout 4 ]

/-- Layout of `struct gpio_v2_line_values`: two `__aligned_u64` fields. -/
def gpio_v2_line_values : Layout :=
  structLayout [u64Layout, u64Layout]

/-- Shift of the command-number field in an ioctl code (asm-generic). -/
def IOC_NRSHIFT : Nat := 0

/-- Shift of the magic (type) field in an ioctl code (asm-generic). -/
def IOC_TYPESHIFT : Nat := 8

/-- Shift of the payload-size field in an ioctl code (asm-generic). -/
def IOC_SIZESHIFT : Nat := 16

/-- Shift of the direction field in an ioctl code (asm-generic). -/
def IOC_DIRSHIFT : Nat := 30

/-- Direction code for an ioctl with no data transfer. -/
def IOC_NONE : Nat := 0

/-- Direction code for a write (userland to kernel) ioctl. -/
def IOC_WRITE : Nat := 1

/-- Direction code for a read (kernel to userland) ioctl. -/
def IOC_READ : Nat := 2

/-- Embedding of the `_IOC` macro: the bitwise OR of the four shifted
fields, reduced to the 32-bit result the program prints with `%08X`. -/
def IOC (dir ty nr size : Nat) : Nat :=
  ((dir <<< IOC_DIRSHIFT) ||| (size <<< IOC_SIZESHIFT) |||
   (ty <<< IOC_TYPESHIFT) ||| (nr <<< IOC_NRSHIFT)) % 2 ^ 32

/-- Embedding of the `_IOR` macro: a read ioctl whose payload size is the
size of the given type. -/
def IOR (ty nr : Nat) (t : Layout) : Nat := IOC IOC_READ ty nr (sizeofL t)

/-- Embedding of the `_IOWR` macro: a read-write ioctl whose payload size
is the size of the given type. -/
def IOWR (ty nr : Nat) (t : Layout) : Nat :=
  IOC (IOC_READ ||| IOC_WRITE) ty nr (sizeofL t)

/-- Value of the `GPIO_GET_CHIPINFO_IOCTL` define. -/
def GPIO_GET_CHIPINFO_IOCTL : Nat := IOR 0xB4 0x01 gpiochip_info

/-- Value of the `GPIO_GET_LINEINFO_UNWATCH_IOCTL` define; its payload
type is a bare `__u32`. -/
def GPIO_GET_LINEINFO_UNWATCH_IOCTL : Nat := IOWR 0xB4 0x0C u32Layout

/-- Value of the `GPIO_V2_GET_LINEINFO_IOCTL` define. -/
def GPIO_V2_GET_LINEINFO_IOCTL : Nat := IOWR 0xB4 0x05 gpio_v2_line_info

/-- Value of the `GPIO_V2_GET_LINEINFO_WATCH_IOCTL` define. -/
def GPIO_V2_GET_LINEINFO_WATCH_IOCTL : Nat := IOWR 0xB4 0x06 gpio_v2_line_info

/-- Value of the `GPIO_V2_GET_LINE_IOCTL` define. -/
def GPIO_V2_GET_LINE_IOCTL : Nat := IOWR 0xB4 0x07 gpio_v2_line_request

/-- Value of the `GPIO_V2_LINE_SET_CONFIG_IOCTL` define. -/
def GPIO_V2_LINE_SET_CONFIG_IOCTL : Nat := IOWR 0xB4 0x0D gpio_v2_line_config

/-- Value of the `GPIO_V2_LINE_GET_VALUES_IOCTL` define. -/
def GPIO_V2_LINE_GET_VALUES_IOCTL : Nat := IOWR 0xB4 0x0E gpio_v2_line_values

/-- Value of the `GPIO_V2_LINE_SET_VALUES_IOCTL` define. -/
def GPIO_V2_LINE_SET_VALUES_IOCTL : Nat := IOWR 0xB4 0x0F gpio_v2_line_values

/-- Uppercase hexadecimal digit for a value below 16, as `%X` renders it. -/
def hexDigit (n : Nat) : Char :=
  if n < 10 then Char.ofNat (48 + n) else Char.ofNat (55 + n)

/-- Eight-digit zero-padded uppercase hexadecimal rendering of a 32-bit
value, as `%08X` renders it for values below `2 ^ 32`. -/
def toHex8 (n : Nat) : List Char :=
  (List.range 8).map (fun i => hexDigit ((n >>> (4 * (7 - i))) &&& 0xF))

/-- Report entries in the order of the `printf` calls of `main`: the
printed code and its symbolic name. -/
def reportEntries : List (Nat × String) :=
  [ (GPIO_GET_CHIPINFO_IOCTL, "GPIO_GET_CHIPINFO_IOCTL")
  , (GPIO_V2_GET_LINEINFO_IOCTL, "GPIO_V2_GET_LINEINFO_IOCTL")
  , (GPIO_V2_GET_LINEINFO_WATCH_IOCTL, "GPIO_V2_GET_LINEINFO_WATCH_IOCTL")
  , (GPIO_V2_GET_LINE_IOCTL, "GPIO_V2_GET_LINE_IOCTL")
  , (GPIO_GET_LINEINFO_UNWATCH_IOCTL, "GPIO_GET_LINEINFO_UNWATCH_IOCTL")
  , (GPIO_V2_LINE_SET_CONFIG_IOCTL, "GPIO_V2_LINE_SET_CONFIG_IOCTL")
  , (GPIO_V2_LINE_GET_VALUES_IOCTL, "GPIO_V2_LINE_GET_VALUES_IOCTL")
  , (GPIO_V2_LINE_SET_VALUES_IOCTL, "GPIO_V2_LINE_SET_VALUES_IOCTL") ]

/-- Codes printed by the program, in print order. -/
def reportCodes : List Nat := reportEntries.map Prod.fst

/-- Rendering of one output line of `main`, as a character list:
`0x`, eight uppercase hex digits, a space, and the symbolic name. -/
def renderLine (code : Nat) (name : String) : List Char :=
  [Char.ofNat 48, Char.ofNat 120] ++ toHex8 code ++ [Char.ofNat 32] ++ name.data

/-- Output lines of the program, in print order. -/
def reportLines : List (List Char) :=
  reportEntries.map (fun e => renderLine e.1 e.2)

/-- Process environment visible to the program: the command-line arguments
and the environment variables. `main` consults neither. -/
structure Env where
  args : List String
  vars : List (String × String)

/-- Embedding of a whole run of `main`: the output lines produced and the
exit status returned. The body of `main` is a fixed sequence of `printf`
calls followed by `return 0`, so the result does not depend on the
environment. -/
def run (_ : Env) : List (List Char) × Nat := (reportLines, 0)

/-- Packing formula exactly as the specification words it, for refinement
against the source-derived `IOC`: direction in bits [31:30], payload size
in the next 14-bit field at bit 16, magic in the next 8 bits, command in
the low 8 bits, bitwise OR of the shifted fields in 32-bit width. -/
def packSpec (dir size magic nr : Nat) : Nat :=
  ((dir <<< 30) ||| (size <<< 16) ||| (magic <<< 8) ||| nr) % 2 ^ 32

/-- Size field of an ioctl code read back: bits [29:16]. -/
def sizeFieldOf (code : Nat) : Nat := (code >>> 16) &&& 0x3FFF

/-- Direction field of an ioctl code read back: bits [31:30]. -/
def dirFieldOf (code : Nat) : Nat := (code >>> 30) &&& 0x3

/-- Magic field of an ioctl code read back: bits [15:8]. -/
def magicFieldOf (code : Nat) : Nat := (code >>> 8) &&& 0xFF

/-- Command field of an ioctl code read back: bits [7:0]. -/
def nrFieldOf (code : Nat) : Nat := code &&& 0xFF

/-- Tests whether a character is an uppercase hexadecimal digit,
`0`–`9` or `A`–`F`. -/
def isHexUpperDigit (c : Char) : Bool :=
  (48 ≤ c.toNat && c.toNat ≤ 57) || (65 ≤ c.toNat && c.toNat ≤ 70)

/-- Reads back the whole 14-bit size field of any ioctl code built with
the maximal size `2 ^ 14 - 1`: since that size is all ones, bits [29:16]
of the packed result are all set whatever the other fields hold. -/
theorem sizeField_IOC_allOnes (d t n : Nat) :
    sizeFieldOf (IOC d t n (2 ^ 14 - 1)) = 2 ^ 14 - 1 := by
  apply Nat.eq_of_testBit_eq
  intro i
  show Nat.testBit
      ((((d <<< 30) ||| ((2 ^ 14 - 1) <<< 16) ||| (t <<< 8) ||| (n <<< 0)) % 2 ^ 32) >>> 16
        &&& 0x3FFF) i
    = Nat.testBit (2 ^ 14 - 1) i
  rw [Nat.testBit_and, Nat.testBit_shiftRight, Nat.testBit_mod_two_pow]
  have h3 : Nat.testBit 0x3FFF i = decide (i < 14) := by
    have e : (0x3FFF : Nat) = 2 ^ 14 - 1 := by norm_num
    rw [e, Nat.testBit_two_pow_sub_one]
  rw [h3, Nat.testBit_two_pow_sub_one]
  by_cases hi : i < 14
  · have key :
        Nat.testBit ((d <<< 30) ||| ((2 ^ 14 - 1) <<< 16) ||| (t <<< 8) ||| (n <<< 0))
          (16 + i) = true := by
      have hb : Nat.testBit ((2 ^ 14 - 1) <<< 16) (16 + i) = true := by
        rw [Nat.testBit_shiftLeft]
        have e1 : 16 + i - 16 = i := by omega
        rw [e1, Nat.testBit_two_pow_sub_one]
        simp [hi]
      rw [Nat.testBit_or, Nat.testBit_or, Nat.testBit_or, hb]
      simp
    have hlt : 16 + i < 32 := by omega
    rw [key]
    simp [hlt, hi]
  · simp [hi]

/-- Claim C1: every ioctl code the program prints equals the bitwise OR of
four shifted fields — direction in bits [31:30], payload size in the next
14-bit field, magic 0xB4 in the next 8 bits, command in the low 8 bits —
applied to that entry's direction, magic, command and payload size. -/
theorem printed_codes_match_packing_formula :
    reportCodes =
      [ packSpec IOC_READ (sizeofL gpiochip_info) 0xB4 0x01
      , packSpec (IOC_READ ||| IOC_WRITE) (sizeofL gpio_v2_line_info) 0xB4 0x05
      , packSpec (IOC_READ ||| IOC_WRITE) (sizeofL gpio_v2_line_info) 0xB4 0x06
      , packSpec (IOC_READ ||| IOC_WRITE) (sizeofL gpio_v2_line_request) 0xB4 0x07
      , packSpec (IOC_READ ||| IOC_WRITE) (sizeofL u32Layout) 0xB4 0x0C
      , packSpec (IOC_READ ||| IOC_WRITE) (sizeofL gpio_v2_line_config) 0xB4 0x0D
      , packSpec (IOC_READ ||| IOC_WRITE) (sizeofL gpio_v2_line_values) 0xB4 0x0E
      , packSpec (IOC_READ ||| IOC_WRITE) (sizeofL gpio_v2_line_values) 0xB4 0x0F ] := by
  decide

/-- Claim C2: the chip-info ioctl is built with direction READ, magic
0xB4, command 0x01 and a payload size equal to the true size of
`struct gpiochip_info` — two 32-byte char arrays plus one `__u32`, 68
bytes — and its printed value is the fixed constant 0x8044B401. -/
theorem chipinfo_ioctl_constant :
    sizeofL gpiochip_info = 2 * GPIO_MAX_NAME_SIZE + 4 ∧
    sizeofL gpiochip_info = 68 ∧
    GPIO_GET_CHIPINFO_IOCTL = packSpec IOC_READ (sizeofL gpiochip_info) 0xB4 0x01 ∧
    GPIO_GET_CHIPINFO_IOCTL = 0x8044B401 := by
  decide

/-- Claim C3, counterexample: the report does not produce exactly 7
output lines; `main` holds eight `printf` calls. -/
theorem report_not_seven_lines : (run ⟨[], []⟩).1.length ≠ 7 := by decide

/-- Claim C3, amended: invoking the report with no arguments produces
exactly 8 output lines, each consisting of `0x`, eight uppercase
zero-padded hexadecimal digits, a space, and one of the 8 fixed symbolic
ioctl names, in the fixed order of the `printf` calls of `main`. -/
theorem report_output_format (env : Env) (h : env.args = []) :
    (run env).1.length = 8 ∧
    ((run env).1.all fun l =>
      decide (l.take 2 = [Char.ofNat 48, Char.ofNat 120]) &&
      ((l.drop 2).take 8).all isHexUpperDigit &&
      decide ((l.drop 10).take 1 = [Char.ofNat 32])) = true ∧
    (run env).1.map (fun l => l.drop 11) =
      [ "GPIO_GET_CHIPINFO_IOCTL".data
      , "GPIO_V2_GET_LINEINFO_IOCTL".data
      , "GPIO_V2_GET_LINEINFO_WATCH_IOCTL".data
      , "GPIO_V2_GET_LINE_IOCTL".data
      , "GPIO_GET_LINEINFO_UNWATCH_IOCTL".data
      , "GPIO_V2_LINE_SET_CONFIG_IOCTL".data
      , "GPIO_V2_LINE_GET_VALUES_IOCTL".data
      , "GPIO_V2_LINE_SET_VALUES_IOCTL".data ] := by
  have hrun : run env = (reportLines, 0) := rfl
  rw [hrun]
  exact ⟨by decide, by decide, by decide⟩

/-- Witness for the amended claim C3 at the concrete empty environment. -/
theorem report_output_format_witness :
    (run ⟨[], []⟩).1.length = 8 ∧
    ((run ⟨[], []⟩).1.all fun l =>
      decide (l.take 2 = [Char.ofNat 48, Char.ofNat 120]) &&
      ((l.drop 2).take 8).all isHexUpperDigit &&
      decide ((l.drop 10).take 1 = [Char.ofNat 32])) = true ∧
    (run ⟨[], []⟩).1.map (fun l => l.drop 11) =
      [ "GPIO_GET_CHIPINFO_IOCTL".data
      , "GPIO_V2_GET_LINEINFO_IOCTL".data
      , "GPIO_V2_GET_LINEINFO_WATCH_IOCTL".data
      , "GPIO_V2_GET_LINE_IOCTL".data
      , "GPIO_GET_LINEINFO_UNWATCH_IOCTL".data
      , "GPIO_V2_LINE_SET_CONFIG_IOCTL".data
      , "GPIO_V2_LINE_GET_VALUES_IOCTL".data
      , "GPIO_V2_LINE_SET_VALUES_IOCTL".data ] :=
  report_output_format ⟨[], []⟩ rfl

/-- Claim C4: `struct gpio_v2_line_config_attribute` is 8 bytes larger
than `struct gpio_v2_line_attribute` (24 = 16 + 8) under 8-byte alignment
of the 64-bit fields, and every payload record's size is a fixed
constant of the layout rules. -/
theorem config_attribute_size_invariant :
    sizeofL gpio_v2_line_config_attribute = sizeofL gpio_v2_line_attribute + 8 ∧
    sizeofL gpio_v2_line_attribute = 16 ∧
    sizeofL gpio_v2_line_config_attribute = 24 ∧
    [ sizeofL gpiochip_info
    , sizeofL gpio_v2_line_attribute
    , sizeofL gpio_v2_line_config_attribute
    , sizeofL gpio_v2_line_config
    , sizeofL gpio_v2_line_request
    , sizeofL gpio_v2_line_info
    , sizeofL gpio_v2_line_values ] = [68, 16, 24, 272, 592, 256, 16] := by
  decide

/-- Claim C5: a payload size equal to the size field's maximum (2^14 - 1)
is encoded without truncation — the size field reads back exactly — while
any size, including one exceeding the maximum, is encoded by the same
shift-and-OR formula reduced modulo 2^32, never by a failure: a size of
2^14 reads back as 0, and a size of 2^16 is silently dropped by the
32-bit reduction. -/
theorem size_boundary_encoding :
    (∀ d t n, sizeFieldOf (IOC d t n (2 ^ 14 - 1)) = 2 ^ 14 - 1) ∧
    (∀ d t n s, IOC d t n s = packSpec d s t n) ∧
    sizeFieldOf (IOC IOC_READ 0xB4 0x01 (2 ^ 14)) = 0 ∧
    IOC (IOC_READ ||| IOC_WRITE) 0xB4 0x07 (2 ^ 16) = 0xC000B407 :=
  ⟨sizeField_IOC_allOnes, fun _ _ _ _ => rfl, by decide, by decide⟩

/-- Claim C6: running the report twice produces identical output — the
whole result of a run is independent of the arguments, the environment
variables, or anything else in the process environment. -/
theorem run_deterministic : ∀ e1 e2 : Env, run e1 = run e2 :=
  fun _ _ => rfl

/-- Claim C7: the exit status is 0 on every run; there is no failure
path. -/
theorem run_exit_code_zero : ∀ e : Env, (run e).2 = 0 :=
  fun _ => rfl

/-- Claim C8: the command bytes of the printed ioctl codes are 0x01,
0x05, 0x06, 0x07, 0x0C, 0x0D, 0x0E, 0x0F, pairwise distinct, and hence
the printed 32-bit codes are pairwise distinct. -/
theorem command_numbers_distinct :
    reportCodes.map nrFieldOf = [0x01, 0x05, 0x06, 0x07, 0x0C, 0x0D, 0x0E, 0x0F] ∧
    (reportCodes.map nrFieldOf).Nodup ∧
    reportCodes.Nodup := by
  decide

/-- Claim C9: every printed ioctl code carries the magic byte 0xB4 in
bits [15:8]. -/
theorem magic_byte_invariant :
    reportCodes.all (fun c => magicFieldOf c == 0xB4) = true := by
  decide

/-- Claim C10: exactly one printed ioctl code has direction READ only,
and it is GPIO_GET_CHIPINFO_IOCTL; all 7 remaining codes of the 8
printed have direction READ|WRITE in bits [31:30]. -/
theorem direction_field_invariant :
    (reportEntries.filter (fun e => dirFieldOf e.1 == IOC_READ)).map Prod.snd =
      ["GPIO_GET_CHIPINFO_IOCTL"] ∧
    (reportEntries.filter
      (fun e => dirFieldOf e.1 == (IOC_READ ||| IOC_WRITE))).length = 7 ∧
    reportEntries.length = 8 := by
  decide
